import Mathlib

/-
Verification of the ipapi client library (src/lib.rs).

The library builds request URLs from a base endpoint and IP strings,
issues one HTTP GET per call, and decodes the response body as JSON.
The HTTP transport and the JSON text parser are external collaborators;
they are modelled as a `Transport` record.  The serde-derived decoders
for the four data structures (ISPInfo, LocationInfo, RiskInfo, IPInfo)
are embedded concretely from the struct definitions: fields of type
Option decode to none when missing or null, the required `ip` field
must be a JSON string, booleans must be JSON booleans, u8 must be a
JSON integer in 0..=255, f64 accepts any JSON number.

Each operation returns its result together with the list of URLs it
issued a GET to, so the single-request behaviour is provable.
-/

namespace Ipapi

/-- JSON numbers as produced by the text parser: an integer token, or a
floating-point token (whose value the embedding does not inspect, since
the library only ever stores such numbers verbatim). -/
inductive JsonNum where
  | int (i : Int)
  | float
deriving DecidableEq

/-- A JSON value.  Objects are association lists of key and value, in
document order, understood as maps (first binding wins on lookup). -/
inductive Json where
  | null
  | bool (b : Bool)
  | num (n : JsonNum)
  | str (s : String)
  | arr (elems : List Json)
  | obj (fields : List (String × Json))

/-- Looks up a key in the field list of a JSON object. -/
def getField (fields : List (String × Json)) (k : String) : Option Json :=
  (fields.find? (fun p => p.1 == k)).map (fun p => p.2)

/-- Rust struct ISPInfo: information about an Internet Service Provider.
All three fields are Option String. -/
structure ISPInfo where
  asn : Option String
  org : Option String
  isp : Option String
deriving DecidableEq

/-- Rust struct LocationInfo: geographical information.  The latitude and
longitude fields are Option f64 in the source; the embedding stores the
JSON number verbatim, which is all the library does with them. -/
structure LocationInfo where
  country : Option String
  country_code : Option String
  city : Option String
  state : Option String
  zipcode : Option String
  latitude : Option JsonNum
  longitude : Option JsonNum
  timezone : Option String
  localtime : Option String
deriving DecidableEq

/-- Rust struct RiskInfo: risk flags and score.  The risk_score field is
Option u8 in the source, embedded as Option Nat with values below 256. -/
structure RiskInfo where
  is_mobile : Option Bool
  is_vpn : Option Bool
  is_tor : Option Bool
  is_proxy : Option Bool
  is_datacenter : Option Bool
  risk_score : Option Nat
deriving DecidableEq

/-- Rust struct IPInfo: the full record for one IP address.  The ip field
is a required String; the other three are Option records. -/
structure IPInfo where
  ip : String
  isp : Option ISPInfo
  location : Option LocationInfo
  risk : Option RiskInfo
deriving DecidableEq

/-- Decodes an Option String field: absent or null gives none, a JSON
string gives some, anything else is a type error. -/
def decodeOptString : Option Json → Option (Option String)
  | none => some none
  | some Json.null => some none
  | some (Json.str s) => some (some s)
  | some _ => none

/-- Decodes an Option bool field: absent or null gives none, a JSON
boolean gives some, anything else is a type error. -/
def decodeOptBool : Option Json → Option (Option Bool)
  | none => some none
  | some Json.null => some none
  | some (Json.bool b) => some (some b)
  | some _ => none

/-- Decodes an Option f64 field: absent or null gives none, any JSON
number gives some, anything else is a type error. -/
def decodeOptF64 : Option Json → Option (Option JsonNum)
  | none => some none
  | some Json.null => some none
  | some (Json.num n) => some (some n)
  | some _ => none

/-- Decodes an Option u8 field: absent or null gives none, a JSON integer
in 0..=255 gives some, any other number or value is a type error. -/
def decodeOptU8 : Option Json → Option (Option Nat)
  | none => some none
  | some Json.null => some none
  | some (Json.num (JsonNum.int i)) =>
      if 0 ≤ i ∧ i ≤ 255 then some (some i.toNat) else none
  | some _ => none

/-- Decodes the required String field ip: it must be present and a JSON
string; a missing field or any other value is an error. -/
def decodeReqString : Option Json → Option String
  | some (Json.str s) => some s
  | _ => none

/-- Decodes the field list of a JSON object into an ISPInfo. -/
def decodeISPFields (fields : List (String × Json)) : Option ISPInfo := do
  let asn ← decodeOptString (getField fields "asn")
  let org ← decodeOptString (getField fields "org")
  let isp ← decodeOptString (getField fields "isp")
  some ⟨asn, org, isp⟩

/-- Decodes an Option ISPInfo field: absent or null gives none, a JSON
object decodes recursively, anything else is a type error. -/
def decodeOptISPInfo : Option Json → Option (Option ISPInfo)
  | none => some none
  | some Json.null => some none
  | some (Json.obj fields) => (decodeISPFields fields).map some
  | some _ => none

/-- Decodes the field list of a JSON object into a LocationInfo. -/
def decodeLocationFields (fields : List (String × Json)) : Option LocationInfo := do
  let country ← decodeOptString (getField fields "country")
  let country_code ← decodeOptString (getField fields "country_code")
  let city ← decodeOptString (getField fields "city")
  let state ← decodeOptString (getField fields "state")
  let zipcode ← decodeOptString (getField fields "zipcode")
  let latitude ← decodeOptF64 (getField fields "latitude")
  let longitude ← decodeOptF64 (getField fields "longitude")
  let timezone ← decodeOptString (getField fields "timezone")
  let localtime ← decodeOptString (getField fields "localtime")
  some ⟨country, country_code, city, state, zipcode, latitude, longitude,
        timezone, localtime⟩

/-- Decodes an Option LocationInfo field: absent or null gives none, a
JSON object decodes recursively, anything else is a type error. -/
def decodeOptLocationInfo : Option Json → Option (Option LocationInfo)
  | none => some none
  | some Json.null => some none
  | some (Json.obj fields) => (decodeLocationFields fields).map some
  | some _ => none

/-- Decodes the field list of a JSON object into a RiskInfo. -/
def decodeRiskFields (fields : List (String × Json)) : Option RiskInfo := do
  let is_mobile ← decodeOptBool (getField fields "is_mobile")
  let is_vpn ← decodeOptBool (getField fields "is_vpn")
  let is_tor ← decodeOptBool (getField fields "is_tor")
  let is_proxy ← decodeOptBool (getField fields "is_proxy")
  let is_datacenter ← decodeOptBool (getField fields "is_datacenter")
  let risk_score ← decodeOptU8 (getField fields "risk_score")
  some ⟨is_mobile, is_vpn, is_tor, is_proxy, is_datacenter, risk_score⟩

/-- Decodes an Option RiskInfo field: absent or null gives none, a JSON
object decodes recursively, anything else is a type error. -/
def decodeOptRiskInfo : Option Json → Option (Option RiskInfo)
  | none => some none
  | some Json.null => some none
  | some (Json.obj fields) => (decodeRiskFields fields).map some
  | some _ => none

/-- Decodes the field list of a JSON object into an IPInfo. -/
def decodeIPInfoFields (fields : List (String × Json)) : Option IPInfo := do
  let ip ← decodeReqString (getField fields "ip")
  let isp ← decodeOptISPInfo (getField fields "isp")
  let location ← decodeOptLocationInfo (getField fields "location")
  let risk ← decodeOptRiskInfo (getField fields "risk")
  some ⟨ip, isp, location, risk⟩

/-- Decodes a JSON value into an IPInfo record: only an object can
succeed. -/
def decodeIPInfo : Json → Option IPInfo
  | Json.obj fields => decodeIPInfoFields fields
  | _ => none

/-- Decodes a list of JSON values elementwise, in order; any element
failure fails the whole list. -/
def decodeIPInfoList : List Json → Option (List IPInfo)
  | [] => some []
  | j :: js =>
      match decodeIPInfo j, decodeIPInfoList js with
      | some info, some infos => some (info :: infos)
      | _, _ => none

/-- Decodes a JSON value into a Vec of IPInfo records: only an array can
succeed. -/
def decodeVecIPInfo : Json → Option (List IPInfo)
  | Json.arr js => decodeIPInfoList js
  | _ => none

/-- The collaborator boundary: issuing an HTTP GET to a URL yields either
a transport-level failure message or the response body text, and the
structured-decoding collaborator parses body text into a JSON value. -/
structure Transport where
  get : String → Except String String
  parseJson : String → Option Json

/-- The error type surfaced by every operation (reqwest Error): either
the request could not be completed at the transport level, or a response
body failed to decode. -/
inductive Error where
  | network (msg : String)
  | decode
deriving DecidableEq

/-- The base URL for the ipquery.io API. -/
def BASE_URL : String := "https://api.ipquery.io/"

/-- Decoding of a response body via the JSON collaborator followed by a
schema decoder, as performed by the json method on a response. -/
def decodeBodyWith {α : Type} (t : Transport) (dec : Json → Option α)
    (body : String) : Except Error α :=
  match (t.parseJson body).bind dec with
  | none => Except.error Error.decode
  | some a => Except.ok a

/-- Fetches the IP information for a given IP address.  Returns the
result together with the list of URLs requested. -/
def query_ip (t : Transport) (ip : String) :
    Except Error IPInfo × List String :=
  let url := BASE_URL ++ ip
  match t.get url with
  | Except.error e => (Except.error (Error.network e), [url])
  | Except.ok body =>
      match t.parseJson body with
      | none => (Except.error Error.decode, [url])
      | some j =>
          match decodeIPInfo j with
          | none => (Except.error Error.decode, [url])
          | some info => (Except.ok info, [url])

/-- Fetches information for multiple IP addresses in one request. -/
def query_bulk (t : Transport) (ips : List String) :
    Except Error (List IPInfo) × List String :=
  let ip_list := String.intercalate "," ips
  let url := BASE_URL ++ ip_list
  match t.get url with
  | Except.error e => (Except.error (Error.network e), [url])
  | Except.ok body =>
      match t.parseJson body with
      | none => (Except.error Error.decode, [url])
      | some j =>
          match decodeVecIPInfo j with
          | none => (Except.error Error.decode, [url])
          | some infos => (Except.ok infos, [url])

/-- Fetches the IP address of the current machine: the body text is
returned verbatim, with no JSON decoding. -/
def query_own_ip (t : Transport) : Except Error String × List String :=
  match t.get BASE_URL with
  | Except.error e => (Except.error (Error.network e), [BASE_URL])
  | Except.ok body => (Except.ok body, [BASE_URL])

/-- Same as query_ip but against a caller-supplied endpoint. -/
def query_ip_with_endpoint (t : Transport) (ip endpoint : String) :
    Except Error IPInfo × List String :=
  let url := endpoint ++ ip
  match t.get url with
  | Except.error e => (Except.error (Error.network e), [url])
  | Except.ok body =>
      match t.parseJson body with
      | none => (Except.error Error.decode, [url])
      | some j =>
          match decodeIPInfo j with
          | none => (Except.error Error.decode, [url])
          | some info => (Except.ok info, [url])

/-- Same as query_bulk but against a caller-supplied endpoint. -/
def query_bulk_with_endpoint (t : Transport) (ips : List String)
    (endpoint : String) : Except Error (List IPInfo) × List String :=
  let ip_list := String.intercalate "," ips
  let url := endpoint ++ ip_list
  match t.get url with
  | Except.error e => (Except.error (Error.network e), [url])
  | Except.ok body =>
      match t.parseJson body with
      | none => (Except.error Error.decode, [url])
      | some j =>
          match decodeVecIPInfo j with
          | none => (Except.error Error.decode, [url])
          | some infos => (Except.ok infos, [url])

/-- Same as query_own_ip but against a caller-supplied endpoint. -/
def query_own_ip_with_endpoint (t : Transport) (endpoint : String) :
    Except Error String × List String :=
  match t.get endpoint with
  | Except.error e => (Except.error (Error.network e), [endpoint])
  | Except.ok body => (Except.ok body, [endpoint])

/-- A transport whose responses parse to a single IPInfo object. -/
def singleTransport : Transport :=
  { get := fun _ => Except.ok "body",
    parseJson := fun _ => some (Json.obj [("ip", Json.str "8.8.8.8")]) }

/-- A transport whose responses parse to an array of two IPInfo objects. -/
def pairTransport : Transport :=
  { get := fun _ => Except.ok "body",
    parseJson := fun _ => some (Json.arr
      [Json.obj [("ip", Json.str "8.8.8.8")],
       Json.obj [("ip", Json.str "1.1.1.1")]]) }

/-- A transport for which every request fails at the network level. -/
def downTransport : Transport :=
  { get := fun _ => Except.error "connection refused",
    parseJson := fun _ => none }

/-- A transport whose responses parse to an array with an element that is
not an IPInfo object. -/
def badElemTransport : Transport :=
  { get := fun _ => Except.ok "body",
    parseJson := fun _ => some (Json.arr [Json.null]) }

/-- Unfolding lemma: query_ip_with_endpoint requests exactly the URL
endpoint ++ ip and maps the outcome through body decoding. -/
theorem query_ip_with_endpoint_eq (t : Transport) (ip e : String) :
    query_ip_with_endpoint t ip e =
      ((match t.get (e ++ ip) with
        | Except.error m => Except.error (Error.network m)
        | Except.ok body => decodeBodyWith t decodeIPInfo body),
       [e ++ ip]) := by
  rcases hg : t.get (e ++ ip) with m | body
  · simp [query_ip_with_endpoint, hg]
  · rcases hp : t.parseJson body with _ | j
    · simp [query_ip_with_endpoint, decodeBodyWith, hg, hp]
    · rcases hd : decodeIPInfo j with _ | info <;>
        simp [query_ip_with_endpoint, decodeBodyWith, hg, hp, hd]

/-- The default-endpoint single lookup is the endpoint variant at the
base URL. -/
theorem query_ip_eq_base (t : Transport) (ip : String) :
    query_ip t ip = query_ip_with_endpoint t ip BASE_URL := rfl

/-- Unfolding lemma: query_bulk_with_endpoint requests exactly the URL
endpoint ++ joined ips and maps the outcome through body decoding. -/
theorem query_bulk_with_endpoint_eq (t : Transport) (ips : List String)
    (e : String) :
    query_bulk_with_endpoint t ips e =
      ((match t.get (e ++ String.intercalate "," ips) with
        | Except.error m => Except.error (Error.network m)
        | Except.ok body => decodeBodyWith t decodeVecIPInfo body),
       [e ++ String.intercalate "," ips]) := by
  rcases hg : t.get (e ++ String.intercalate "," ips) with m | body
  · simp [query_bulk_with_endpoint, hg]
  · rcases hp : t.parseJson body with _ | j
    · simp [query_bulk_with_endpoint, decodeBodyWith, hg, hp]
    · rcases hd : decodeVecIPInfo j with _ | infos <;>
        simp [query_bulk_with_endpoint, decodeBodyWith, hg, hp, hd]

/-- The default-endpoint bulk lookup is the endpoint variant at the base
URL. -/
theorem query_bulk_eq_base (t : Transport) (ips : List String) :
    query_bulk t ips = query_bulk_with_endpoint t ips BASE_URL := rfl

/-- Unfolding lemma: query_own_ip_with_endpoint requests exactly the
endpoint URL and returns the body verbatim. -/
theorem query_own_ip_with_endpoint_eq (t : Transport) (e : String) :
    query_own_ip_with_endpoint t e =
      ((match t.get e with
        | Except.error m => Except.error (Error.network m)
        | Except.ok body => Except.ok body),
       [e]) := by
  rcases hg : t.get e with m | body <;> simp [query_own_ip_with_endpoint, hg]

/-- The default-endpoint self lookup is the endpoint variant at the base
URL. -/
theorem query_own_ip_eq_base (t : Transport) :
    query_own_ip t = query_own_ip_with_endpoint t BASE_URL := rfl

/-- If any element of the array fails to decode, the whole list decode
fails. -/
theorem decodeIPInfoList_eq_none (js : List Json)
    (h : ∃ j ∈ js, decodeIPInfo j = none) : decodeIPInfoList js = none := by
  induction js with
  | nil => rcases h with ⟨j, hj, _⟩; cases hj
  | cons j js ih =>
      rcases h with ⟨j0, hj0, hd0⟩
      rcases List.mem_cons.mp hj0 with h0 | h0
      · subst h0
        simp [decodeIPInfoList, hd0]
      · rw [decodeIPInfoList, ih ⟨j0, h0, hd0⟩]
        rcases decodeIPInfo j with _ | _ <;> rfl

/-- A successful list decode has the same length as the input and decodes
elementwise, in order. -/
theorem decodeIPInfoList_eq_some (js : List Json) (infos : List IPInfo)
    (h : decodeIPInfoList js = some infos) :
    infos.length = js.length ∧
    ∀ i (h1 : i < js.length) (h2 : i < infos.length),
      decodeIPInfo (js.get ⟨i, h1⟩) = some (infos.get ⟨i, h2⟩) := by
  induction js generalizing infos with
  | nil =>
      rw [decodeIPInfoList] at h
      cases h
      exact ⟨rfl, fun i h1 _ => absurd h1 (Nat.not_lt_zero i)⟩
  | cons j js ih =>
      rw [decodeIPInfoList] at h
      rcases hd : decodeIPInfo j with _ | info <;> rw [hd] at h
      · cases h
      · rcases hrest : decodeIPInfoList js with _ | rest <;> rw [hrest] at h
        · cases h
        · cases h
          obtain ⟨hlen, hget⟩ := ih rest hrest
          refine ⟨by simp [hlen], ?_⟩
          intro i h1 h2
          cases i with
          | zero => simpa using hd
          | succ n =>
              exact hget n (Nat.lt_of_succ_lt_succ h1) (Nat.lt_of_succ_lt_succ h2)

/-- C1: query_ip and query_ip_with_endpoint build the request URL as the
concatenation of the endpoint (the fixed base URL for query_ip) and the
IP string, issue exactly one HTTP GET to that URL, and decode the
response body as a single IPInfo record. -/
theorem query_ip_url_single_get_decode (t : Transport) (ip e : String) :
    (query_ip t ip).2 = [BASE_URL ++ ip] ∧
    (query_ip_with_endpoint t ip e).2 = [e ++ ip] ∧
    (∀ body, t.get (BASE_URL ++ ip) = Except.ok body →
      (query_ip t ip).1 = decodeBodyWith t decodeIPInfo body) ∧
    (∀ body, t.get (e ++ ip) = Except.ok body →
      (query_ip_with_endpoint t ip e).1 = decodeBodyWith t decodeIPInfo body) := by
  refine ⟨?_, ?_, ?_, ?_⟩
  · rw [query_ip_eq_base, query_ip_with_endpoint_eq]
  · rw [query_ip_with_endpoint_eq]
  · intro body hb
    rw [query_ip_eq_base, query_ip_with_endpoint_eq]
    simp [hb]
  · intro body hb
    rw [query_ip_with_endpoint_eq]
    simp [hb]

/-- Witness for C1 at a concrete transport and IP. -/
theorem query_ip_url_single_get_decode_witness :
    (query_ip singleTransport "8.8.8.8").1 =
      Except.ok ⟨"8.8.8.8", none, none, none⟩ := by
  have h :=
    (query_ip_url_single_get_decode singleTransport "8.8.8.8" "http://x/").2.2.1
      "body" rfl
  exact h.trans rfl

/-- C2: query_bulk and query_bulk_with_endpoint build the request URL as
the endpoint followed by the comma-joined IP list, issue exactly one
HTTP GET, and decode the body as an ordered sequence of IPInfo records,
elementwise in input order. -/
theorem query_bulk_url_single_get_ordered_decode (t : Transport)
    (ips : List String) (e : String) :
    (query_bulk t ips).2 = [BASE_URL ++ String.intercalate "," ips] ∧
    (query_bulk_with_endpoint t ips e).2 = [e ++ String.intercalate "," ips] ∧
    (∀ body, t.get (BASE_URL ++ String.intercalate "," ips) = Except.ok body →
      (query_bulk t ips).1 = decodeBodyWith t decodeVecIPInfo body) ∧
    (∀ body, t.get (e ++ String.intercalate "," ips) = Except.ok body →
      (query_bulk_with_endpoint t ips e).1 =
        decodeBodyWith t decodeVecIPInfo body) ∧
    (∀ js infos, decodeVecIPInfo (Json.arr js) = some infos →
      infos.length = js.length ∧
      ∀ i (h1 : i < js.length) (h2 : i < infos.length),
        decodeIPInfo (js.get ⟨i, h1⟩) = some (infos.get ⟨i, h2⟩)) := by
  refine ⟨?_, ?_, ?_, ?_, ?_⟩
  · rw [query_bulk_eq_base, query_bulk_with_endpoint_eq]
  · rw [query_bulk_with_endpoint_eq]
  · intro body hb
    rw [query_bulk_eq_base, query_bulk_with_endpoint_eq]
    simp [hb]
  · intro body hb
    rw [query_bulk_with_endpoint_eq]
    simp [hb]
  · intro js infos h
    exact decodeIPInfoList_eq_some js infos h

/-- Witness for C2 at a concrete transport and two IPs. -/
theorem query_bulk_url_single_get_ordered_decode_witness :
    (query_bulk pairTransport ["8.8.8.8", "1.1.1.1"]).1 =
      Except.ok [⟨"8.8.8.8", none, none, none⟩,
                 ⟨"1.1.1.1", none, none, none⟩] := by
  have h :=
    (query_bulk_url_single_get_ordered_decode pairTransport
      ["8.8.8.8", "1.1.1.1"] "http://x/").2.2.1 "body" rfl
  exact h.trans rfl

/-- C4: query_own_ip and query_own_ip_with_endpoint issue a single GET to
the bare endpoint with no path suffix, return the body text verbatim with
no JSON decoding, and can fail only with a network error. -/
theorem query_own_ip_raw_text_network_only (t : Transport) (e : String) :
    (query_own_ip t).2 = [BASE_URL] ∧
    (query_own_ip_with_endpoint t e).2 = [e] ∧
    (∀ body, t.get BASE_URL = Except.ok body →
      (query_own_ip t).1 = Except.ok body) ∧
    (∀ body, t.get e = Except.ok body →
      (query_own_ip_with_endpoint t e).1 = Except.ok body) ∧
    (∀ err, (query_own_ip t).1 = Except.error err →
      ∃ msg, err = Error.network msg ∧ t.get BASE_URL = Except.error msg) ∧
    (∀ err, (query_own_ip_with_endpoint t e).1 = Except.error err →
      ∃ msg, err = Error.network msg ∧ t.get e = Except.error msg) := by
  refine ⟨?_, ?_, ?_, ?_, ?_, ?_⟩
  · rw [query_own_ip_eq_base, query_own_ip_with_endpoint_eq]
  · rw [query_own_ip_with_endpoint_eq]
  · intro body hb
    rw [query_own_ip_eq_base, query_own_ip_with_endpoint_eq]
    simp [hb]
  · intro body hb
    rw [query_own_ip_with_endpoint_eq]
    simp [hb]
  · intro err herr
    rw [query_own_ip_eq_base, query_own_ip_with_endpoint_eq] at herr
    rcases hg : t.get BASE_URL with m | body <;> rw [hg] at herr
    · cases herr
      exact ⟨m, rfl, rfl⟩
    · cases herr
  · intro err herr
    rw [query_own_ip_with_endpoint_eq] at herr
    rcases hg : t.get e with m | body <;> rw [hg] at herr
    · cases herr
      exact ⟨m, rfl, rfl⟩
    · cases herr

/-- Witness for C4 at a concrete transport and endpoint. -/
theorem query_own_ip_raw_text_network_only_witness :
    (query_own_ip_with_endpoint singleTransport "http://x/").1 =
      Except.ok "body" :=
  (query_own_ip_raw_text_network_only singleTransport "http://x/").2.2.2.1
    "body" rfl

/-- C5: if any element of a bulk response array fails to decode, the
whole bulk call returns a decode error, never a partial sequence. -/
theorem query_bulk_element_failure_fails_call (t : Transport)
    (ips : List String) (body : String) (js : List Json)
    (hget : t.get (BASE_URL ++ String.intercalate "," ips) = Except.ok body)
    (hparse : t.parseJson body = some (Json.arr js))
    (hbad : ∃ j ∈ js, decodeIPInfo j = none) :
    (query_bulk t ips).1 = Except.error Error.decode := by
  rw [query_bulk_eq_base, query_bulk_with_endpoint_eq]
  simp only [hget]
  rw [decodeBodyWith]
  simp [hparse, decodeVecIPInfo, decodeIPInfoList_eq_none js hbad]

/-- Witness for C5 at a concrete transport whose array has a bad
element. -/
theorem query_bulk_element_failure_fails_call_witness :
    (query_bulk badElemTransport ["8.8.8.8"]).1 =
      Except.error Error.decode :=
  query_bulk_element_failure_fails_call badElemTransport ["8.8.8.8"]
    "body" [Json.null] rfl rfl ⟨Json.null, by simp, rfl⟩

/-- C6: when the transport reports that the request could not be
completed, every operation fails with that network error, surfaced
unchanged, never a decode error; and every operation issues exactly one
request, so nothing is retried. -/
theorem network_failure_surfaced_unchanged (t : Transport)
    (ip : String) (ips : List String) (e msg : String) :
    (t.get (BASE_URL ++ ip) = Except.error msg →
      (query_ip t ip).1 = Except.error (Error.network msg)) ∧
    (t.get (e ++ ip) = Except.error msg →
      (query_ip_with_endpoint t ip e).1 = Except.error (Error.network msg)) ∧
    (t.get (BASE_URL ++ String.intercalate "," ips) = Except.error msg →
      (query_bulk t ips).1 = Except.error (Error.network msg)) ∧
    (t.get (e ++ String.intercalate "," ips) = Except.error msg →
      (query_bulk_with_endpoint t ips e).1 =
        Except.error (Error.network msg)) ∧
    (t.get BASE_URL = Except.error msg →
      (query_own_ip t).1 = Except.error (Error.network msg)) ∧
    (t.get e = Except.error msg →
      (query_own_ip_with_endpoint t e).1 =
        Except.error (Error.network msg)) ∧
    (query_ip t ip).2.length = 1 ∧
    (query_ip_with_endpoint t ip e).2.length = 1 ∧
    (query_bulk t ips).2.length = 1 ∧
    (query_bulk_with_endpoint t ips e).2.length = 1 ∧
    (query_own_ip t).2.length = 1 ∧
    (query_own_ip_with_endpoint t e).2.length = 1 := by
  refine ⟨?_, ?_, ?_, ?_, ?_, ?_, ?_, ?_, ?_, ?_, ?_, ?_⟩
  · intro h
    rw [query_ip_eq_base, query_ip_with_endpoint_eq]
    simp [h]
  · intro h
    rw [query_ip_with_endpoint_eq]
    simp [h]
  · intro h
    rw [query_bulk_eq_base, query_bulk_with_endpoint_eq]
    simp [h]
  · intro h
    rw [query_bulk_with_endpoint_eq]
    simp [h]
  · intro h
    rw [query_own_ip_eq_base, query_own_ip_with_endpoint_eq]
    simp [h]
  · intro h
    rw [query_own_ip_with_endpoint_eq]
    simp [h]
  · rw [query_ip_eq_base, query_ip_with_endpoint_eq]
    rfl
  · rw [query_ip_with_endpoint_eq]
    rfl
  · rw [query_bulk_eq_base, query_bulk_with_endpoint_eq]
    rfl
  · rw [query_bulk_with_endpoint_eq]
    rfl
  · rw [query_own_ip_eq_base, query_own_ip_with_endpoint_eq]
    rfl
  · rw [query_own_ip_with_endpoint_eq]
    rfl

/-- Witness for C6 at a transport that refuses every connection. -/
theorem network_failure_surfaced_unchanged_witness :
    (query_ip downTransport "8.8.8.8").1 =
      Except.error (Error.network "connection refused") :=
  (network_failure_surfaced_unchanged downTransport "8.8.8.8" []
    "http://x/" "connection refused").1 rfl

/-- C7: the empty bulk query joins zero strings into the empty string
and sends one request to the bare base URL; the outcome is entirely
determined by the transport at that URL, so no validation error precedes
the request. -/
theorem query_bulk_empty_sends_bare_base_url (t : Transport) :
    String.intercalate "," ([] : List String) = "" ∧
    (query_bulk t []).2 = [BASE_URL] ∧
    (∀ msg, t.get BASE_URL = Except.error msg →
      (query_bulk t []).1 = Except.error (Error.network msg)) ∧
    (∀ body, t.get BASE_URL = Except.ok body →
      (query_bulk t []).1 = decodeBodyWith t decodeVecIPInfo body) := by
  refine ⟨rfl, ?_, ?_, ?_⟩
  · rw [query_bulk_eq_base, query_bulk_with_endpoint_eq]
    simp [String.intercalate]
  · intro msg h
    rw [query_bulk_eq_base, query_bulk_with_endpoint_eq]
    have hurl : BASE_URL ++ String.intercalate "," ([] : List String) =
        BASE_URL := by simp [String.intercalate]
    rw [hurl]
    simp [h]
  · intro body h
    rw [query_bulk_eq_base, query_bulk_with_endpoint_eq]
    have hurl : BASE_URL ++ String.intercalate "," ([] : List String) =
        BASE_URL := by simp [String.intercalate]
    rw [hurl]
    simp [h]

/-- Witness for C7 at a transport that refuses every connection. -/
theorem query_bulk_empty_sends_bare_base_url_witness :
    (query_bulk downTransport []).1 =
      Except.error (Error.network "connection refused") :=
  (query_bulk_empty_sends_bare_base_url downTransport).2.2.1
    "connection refused" rfl

/-- C8: each default-endpoint operation equals its endpoint variant
applied to the fixed base URL, on every transport and input. -/
theorem default_ops_eq_with_endpoint_at_base (t : Transport) (ip : String)
    (ips : List String) :
    query_ip t ip = query_ip_with_endpoint t ip BASE_URL ∧
    query_bulk t ips = query_bulk_with_endpoint t ips BASE_URL ∧
    query_own_ip t = query_own_ip_with_endpoint t BASE_URL :=
  ⟨rfl, rfl, rfl⟩

/-- C10: a one-element bulk query requests exactly the same URL as the
single query, since joining a one-element list yields that element; the
two differ only in the decoder applied to the body. -/
theorem single_bulk_same_url_as_query_ip (t : Transport) (ip e : String) :
    String.intercalate "," [ip] = ip ∧
    (query_bulk_with_endpoint t [ip] e).2 = [e ++ ip] ∧
    (query_ip_with_endpoint t ip e).2 = [e ++ ip] ∧
    (∀ body, t.get (e ++ ip) = Except.ok body →
      (query_ip_with_endpoint t ip e).1 = decodeBodyWith t decodeIPInfo body ∧
      (query_bulk_with_endpoint t [ip] e).1 =
        decodeBodyWith t decodeVecIPInfo body) := by
  have hone : String.intercalate "," [ip] = ip := by
    simp [String.intercalate, String.intercalate.go]
  refine ⟨hone, ?_, ?_, ?_⟩
  · rw [query_bulk_with_endpoint_eq, hone]
  · rw [query_ip_with_endpoint_eq]
  · intro body hb
    constructor
    · rw [query_ip_with_endpoint_eq]
      simp [hb]
    · rw [query_bulk_with_endpoint_eq, hone]
      simp [hb]

/-- Decoding the field list of ISPInfo fails exactly when one of its
three field decoders fails. -/
theorem decodeISPFields_none_iff (fs : List (String × Json)) :
    decodeISPFields fs = none ↔
      decodeOptString (getField fs "asn") = none ∨
      decodeOptString (getField fs "org") = none ∨
      decodeOptString (getField fs "isp") = none := by
  rcases h1 : decodeOptString (getField fs "asn") with _ | v1
  · simp [decodeISPFields, h1]
  rcases h2 : decodeOptString (getField fs "org") with _ | v2
  · simp [decodeISPFields, h1, h2]
  rcases h3 : decodeOptString (getField fs "isp") with _ | v3
  · simp [decodeISPFields, h1, h2, h3]
  simp [decodeISPFields, h1, h2, h3]

/-- A successfully decoded ISPInfo is built fieldwise from the three
field decoders. -/
theorem decodeISPFields_components (fs : List (String × Json)) (x : ISPInfo)
    (h : decodeISPFields fs = some x) :
    decodeOptString (getField fs "asn") = some x.asn ∧
    decodeOptString (getField fs "org") = some x.org ∧
    decodeOptString (getField fs "isp") = some x.isp := by
  obtain ⟨xa, xo, xi⟩ := x
  rcases h1 : decodeOptString (getField fs "asn") with _ | v1
  · simp [decodeISPFields, h1] at h
  rcases h2 : decodeOptString (getField fs "org") with _ | v2
  · simp [decodeISPFields, h1, h2] at h
  rcases h3 : decodeOptString (getField fs "isp") with _ | v3
  · simp [decodeISPFields, h1, h2, h3] at h
  simp [decodeISPFields, h1, h2, h3] at h
  simp [h1, h2, h3, h]

/-- Decoding the field list of LocationInfo fails exactly when one of its
nine field decoders fails. -/
theorem decodeLocationFields_none_iff (fs : List (String × Json)) :
    decodeLocationFields fs = none ↔
      decodeOptString (getField fs "country") = none ∨
      decodeOptString (getField fs "country_code") = none ∨
      decodeOptString (getField fs "city") = none ∨
      decodeOptString (getField fs "state") = none ∨
      decodeOptString (getField fs "zipcode") = none ∨
      decodeOptF64 (getField fs "latitude") = none ∨
      decodeOptF64 (getField fs "longitude") = none ∨
      decodeOptString (getField fs "timezone") = none ∨
      decodeOptString (getField fs "localtime") = none := by
  rcases h1 : decodeOptString (getField fs "country") with _ | v1
  · simp [decodeLocationFields, h1]
  rcases h2 : decodeOptString (getField fs "country_code") with _ | v2
  · simp [decodeLocationFields, h1, h2]
  rcases h3 : decodeOptString (getField fs "city") with _ | v3
  · simp [decodeLocationFields, h1, h2, h3]
  rcases h4 : decodeOptString (getField fs "state") with _ | v4
  · simp [decodeLocationFields, h1, h2, h3, h4]
  rcases h5 : decodeOptString (getField fs "zipcode") with _ | v5
  · simp [decodeLocationFields, h1, h2, h3, h4, h5]
  rcases h6 : decodeOptF64 (getField fs "latitude") with _ | v6
  · simp [decodeLocationFields, h1, h2, h3, h4, h5, h6]
  rcases h7 : decodeOptF64 (getField fs "longitude") with _ | v7
  · simp [decodeLocationFields, h1, h2, h3, h4, h5, h6, h7]
  rcases h8 : decodeOptString (getField fs "timezone") with _ | v8
  · simp [decodeLocationFields, h1, h2, h3, h4, h5, h6, h7, h8]
  rcases h9 : decodeOptString (getField fs "localtime") with _ | v9
  · simp [decodeLocationFields, h1, h2, h3, h4, h5, h6, h7, h8, h9]
  simp [decodeLocationFields, h1, h2, h3, h4, h5, h6, h7, h8, h9]

/-- A successfully decoded LocationInfo is built fieldwise from the nine
field decoders. -/
theorem decodeLocationFields_components (fs : List (String × Json))
    (x : LocationInfo) (h : decodeLocationFields fs = some x) :
    decodeOptString (getField fs "country") = some x.country ∧
    decodeOptString (getField fs "country_code") = some x.country_code ∧
    decodeOptString (getField fs "city") = some x.city ∧
    decodeOptString (getField fs "state") = some x.state ∧
    decodeOptString (getField fs "zipcode") = some x.zipcode ∧
    decodeOptF64 (getField fs "latitude") = some x.latitude ∧
    decodeOptF64 (getField fs "longitude") = some x.longitude ∧
    decodeOptString (getField fs "timezone") = some x.timezone ∧
    decodeOptString (getField fs "localtime") = some x.localtime := by
  obtain ⟨xc, xcc, xci, xst, xz, xla, xlo, xtz, xlt⟩ := x
  rcases h1 : decodeOptString (getField fs "country") with _ | v1
  · simp [decodeLocationFields, h1] at h
  rcases h2 : decodeOptString (getField fs "country_code") with _ | v2
  · simp [decodeLocationFields, h1, h2] at h
  rcases h3 : decodeOptString (getField fs "city") with _ | v3
  · simp [decodeLocationFields, h1, h2, h3] at h
  rcases h4 : decodeOptString (getField fs "state") with _ | v4
  · simp [decodeLocationFields, h1, h2, h3, h4] at h
  rcases h5 : decodeOptString (getField fs "zipcode") with _ | v5
  · simp [decodeLocationFields, h1, h2, h3, h4, h5] at h
  rcases h6 : decodeOptF64 (getField fs "latitude") with _ | v6
  · simp [decodeLocationFields, h1, h2, h3, h4, h5, h6] at h
  rcases h7 : decodeOptF64 (getField fs "longitude") with _ | v7
  · simp [decodeLocationFields, h1, h2, h3, h4, h5, h6, h7] at h
  rcases h8 : decodeOptString (getField fs "timezone") with _ | v8
  · simp [decodeLocationFields, h1, h2, h3, h4, h5, h6, h7, h8] at h
  rcases h9 : decodeOptString (getField fs "localtime") with _ | v9
  · simp [decodeLocationFields, h1, h2, h3, h4, h5, h6, h7, h8, h9] at h
  simp [decodeLocationFields, h1, h2, h3, h4, h5, h6, h7, h8, h9] at h
  simp [h1, h2, h3, h4, h5, h6, h7, h8, h9, h]

/-- Decoding the field list of RiskInfo fails exactly when one of its six
field decoders fails. -/
theorem decodeRiskFields_none_iff (fs : List (String × Json)) :
    decodeRiskFields fs = none ↔
      decodeOptBool (getField fs "is_mobile") = none ∨
      decodeOptBool (getField fs "is_vpn") = none ∨
      decodeOptBool (getField fs "is_tor") = none ∨
      decodeOptBool (getField fs "is_proxy") = none ∨
      decodeOptBool (getField fs "is_datacenter") = none ∨
      decodeOptU8 (getField fs "risk_score") = none := by
  rcases h1 : decodeOptBool (getField fs "is_mobile") with _ | v1
  · simp [decodeRiskFields, h1]
  rcases h2 : decodeOptBool (getField fs "is_vpn") with _ | v2
  · simp [decodeRiskFields, h1, h2]
  rcases h3 : decodeOptBool (getField fs "is_tor") with _ | v3
  · simp [decodeRiskFields, h1, h2, h3]
  rcases h4 : decodeOptBool (getField fs "is_proxy") with _ | v4
  · simp [decodeRiskFields, h1, h2, h3, h4]
  rcases h5 : decodeOptBool (getField fs "is_datacenter") with _ | v5
  · simp [decodeRiskFields, h1, h2, h3, h4, h5]
  rcases h6 : decodeOptU8 (getField fs "risk_score") with _ | v6
  · simp [decodeRiskFields, h1, h2, h3, h4, h5, h6]
  simp [decodeRiskFields, h1, h2, h3, h4, h5, h6]

/-- A successfully decoded RiskInfo is built fieldwise from the six field
decoders. -/
theorem decodeRiskFields_components (fs : List (String × Json))
    (x : RiskInfo) (h : decodeRiskFields fs = some x) :
    decodeOptBool (getField fs "is_mobile") = some x.is_mobile ∧
    decodeOptBool (getField fs "is_vpn") = some x.is_vpn ∧
    decodeOptBool (getField fs "is_tor") = some x.is_tor ∧
    decodeOptBool (getField fs "is_proxy") = some x.is_proxy ∧
    decodeOptBool (getField fs "is_datacenter") = some x.is_datacenter ∧
    decodeOptU8 (getField fs "risk_score") = some x.risk_score := by
  obtain ⟨xm, xv, xt, xp, xd, xs⟩ := x
  rcases h1 : decodeOptBool (getField fs "is_mobile") with _ | v1
  · simp [decodeRiskFields, h1] at h
  rcases h2 : decodeOptBool (getField fs "is_vpn") with _ | v2
  · simp [decodeRiskFields, h1, h2] at h
  rcases h3 : decodeOptBool (getField fs "is_tor") with _ | v3
  · simp [decodeRiskFields, h1, h2, h3] at h
  rcases h4 : decodeOptBool (getField fs "is_proxy") with _ | v4
  · simp [decodeRiskFields, h1, h2, h3, h4] at h
  rcases h5 : decodeOptBool (getField fs "is_datacenter") with _ | v5
  · simp [decodeRiskFields, h1, h2, h3, h4, h5] at h
  rcases h6 : decodeOptU8 (getField fs "risk_score") with _ | v6
  · simp [decodeRiskFields, h1, h2, h3, h4, h5, h6] at h
  simp [decodeRiskFields, h1, h2, h3, h4, h5, h6] at h
  simp [h1, h2, h3, h4, h5, h6, h]

/-- Decoding the field list of IPInfo fails exactly when the required ip
field decoder or one of the three optional record decoders fails. -/
theorem decodeIPInfoFields_none_iff (fields : List (String × Json)) :
    decodeIPInfoFields fields = none ↔
      decodeReqString (getField fields "ip") = none ∨
      decodeOptISPInfo (getField fields "isp") = none ∨
      decodeOptLocationInfo (getField fields "location") = none ∨
      decodeOptRiskInfo (getField fields "risk") = none := by
  rcases h1 : decodeReqString (getField fields "ip") with _ | v1
  · simp [decodeIPInfoFields, h1]
  rcases h2 : decodeOptISPInfo (getField fields "isp") with _ | v2
  · simp [decodeIPInfoFields, h1, h2]
  rcases h3 : decodeOptLocationInfo (getField fields "location") with _ | v3
  · simp [decodeIPInfoFields, h1, h2, h3]
  rcases h4 : decodeOptRiskInfo (getField fields "risk") with _ | v4
  · simp [decodeIPInfoFields, h1, h2, h3, h4]
  simp [decodeIPInfoFields, h1, h2, h3, h4]

/-- A successfully decoded IPInfo is built fieldwise from the four field
decoders. -/
theorem decodeIPInfoFields_components (fields : List (String × Json))
    (info : IPInfo) (h : decodeIPInfoFields fields = some info) :
    decodeReqString (getField fields "ip") = some info.ip ∧
    decodeOptISPInfo (getField fields "isp") = some info.isp ∧
    decodeOptLocationInfo (getField fields "location") = some info.location ∧
    decodeOptRiskInfo (getField fields "risk") = some info.risk := by
  obtain ⟨xip, xisp, xloc, xrisk⟩ := info
  rcases h1 : decodeReqString (getField fields "ip") with _ | v1
  · simp [decodeIPInfoFields, h1] at h
  rcases h2 : decodeOptISPInfo (getField fields "isp") with _ | v2
  · simp [decodeIPInfoFields, h1, h2] at h
  rcases h3 : decodeOptLocationInfo (getField fields "location") with _ | v3
  · simp [decodeIPInfoFields, h1, h2, h3] at h
  rcases h4 : decodeOptRiskInfo (getField fields "risk") with _ | v4
  · simp [decodeIPInfoFields, h1, h2, h3, h4] at h
  simp [decodeIPInfoFields, h1, h2, h3, h4] at h
  simp [h1, h2, h3, h4, h]

/-- C3: decoding a JSON object into IPInfo fails exactly when the
required ip field is missing or some present field (at any nesting
level, through the per-field decoders) has the wrong type; a missing
optional field never fails and decodes to an absent value, at every
level. -/
theorem ipinfo_decode_optionality_and_failure (fields : List (String × Json)) :
    (decodeIPInfo (Json.obj fields) = none ↔
      decodeReqString (getField fields "ip") = none ∨
      decodeOptISPInfo (getField fields "isp") = none ∨
      decodeOptLocationInfo (getField fields "location") = none ∨
      decodeOptRiskInfo (getField fields "risk") = none) ∧
    decodeReqString none = none ∧
    (decodeOptString none = some none ∧ decodeOptBool none = some none ∧
     decodeOptF64 none = some none ∧ decodeOptU8 none = some none ∧
     decodeOptISPInfo none = some none ∧
     decodeOptLocationInfo none = some none ∧
     decodeOptRiskInfo none = some none) ∧
    (∀ fs, decodeISPFields fs = none ↔
      decodeOptString (getField fs "asn") = none ∨
      decodeOptString (getField fs "org") = none ∨
      decodeOptString (getField fs "isp") = none) ∧
    (∀ fs, decodeLocationFields fs = none ↔
      decodeOptString (getField fs "country") = none ∨
      decodeOptString (getField fs "country_code") = none ∨
      decodeOptString (getField fs "city") = none ∨
      decodeOptString (getField fs "state") = none ∨
      decodeOptString (getField fs "zipcode") = none ∨
      decodeOptF64 (getField fs "latitude") = none ∨
      decodeOptF64 (getField fs "longitude") = none ∨
      decodeOptString (getField fs "timezone") = none ∨
      decodeOptString (getField fs "localtime") = none) ∧
    (∀ fs, decodeRiskFields fs = none ↔
      decodeOptBool (getField fs "is_mobile") = none ∨
      decodeOptBool (getField fs "is_vpn") = none ∨
      decodeOptBool (getField fs "is_tor") = none ∨
      decodeOptBool (getField fs "is_proxy") = none ∨
      decodeOptBool (getField fs "is_datacenter") = none ∨
      decodeOptU8 (getField fs "risk_score") = none) ∧
    (∀ info, decodeIPInfo (Json.obj fields) = some info →
      decodeReqString (getField fields "ip") = some info.ip ∧
      decodeOptISPInfo (getField fields "isp") = some info.isp ∧
      decodeOptLocationInfo (getField fields "location") = some info.location ∧
      decodeOptRiskInfo (getField fields "risk") = some info.risk) ∧
    (∀ fs x, decodeISPFields fs = some x →
      decodeOptString (getField fs "asn") = some x.asn ∧
      decodeOptString (getField fs "org") = some x.org ∧
      decodeOptString (getField fs "isp") = some x.isp) ∧
    (∀ fs x, decodeLocationFields fs = some x →
      decodeOptString (getField fs "country") = some x.country ∧
      decodeOptString (getField fs "country_code") = some x.country_code ∧
      decodeOptString (getField fs "city") = some x.city ∧
      decodeOptString (getField fs "state") = some x.state ∧
      decodeOptString (getField fs "zipcode") = some x.zipcode ∧
      decodeOptF64 (getField fs "latitude") = some x.latitude ∧
      decodeOptF64 (getField fs "longitude") = some x.longitude ∧
      decodeOptString (getField fs "timezone") = some x.timezone ∧
      decodeOptString (getField fs "localtime") = some x.localtime) ∧
    (∀ fs x, decodeRiskFields fs = some x →
      decodeOptBool (getField fs "is_mobile") = some x.is_mobile ∧
      decodeOptBool (getField fs "is_vpn") = some x.is_vpn ∧
      decodeOptBool (getField fs "is_tor") = some x.is_tor ∧
      decodeOptBool (getField fs "is_proxy") = some x.is_proxy ∧
      decodeOptBool (getField fs "is_datacenter") = some x.is_datacenter ∧
      decodeOptU8 (getField fs "risk_score") = some x.risk_score) :=
  ⟨decodeIPInfoFields_none_iff fields, rfl,
   ⟨rfl, rfl, rfl, rfl, rfl, rfl, rfl⟩,
   decodeISPFields_none_iff, decodeLocationFields_none_iff,
   decodeRiskFields_none_iff,
   fun info h => decodeIPInfoFields_components fields info h,
   decodeISPFields_components, decodeLocationFields_components,
   decodeRiskFields_components⟩

/-- Witness for C3: an object holding only the ip key decodes, and its
isp component is the absent value. -/
theorem ipinfo_decode_optionality_and_failure_witness :
    decodeIPInfo (Json.obj [("ip", Json.str "8.8.8.8")]) =
      some ⟨"8.8.8.8", none, none, none⟩ ∧
    decodeOptISPInfo (getField [("ip", Json.str "8.8.8.8")] "isp") =
      some none := by
  refine ⟨rfl, ?_⟩
  exact ((ipinfo_decode_optionality_and_failure
    [("ip", Json.str "8.8.8.8")]).2.2.2.2.2.2.1
    ⟨"8.8.8.8", none, none, none⟩ rfl).2.1

/-- A decoded u8 field is bounded by 255. -/
theorem decodeOptU8_le (o : Option Json) (n : Nat)
    (h : decodeOptU8 o = some (some n)) : n ≤ 255 := by
  rcases o with _ | j
  · simp [decodeOptU8] at h
  cases j with
  | null => simp [decodeOptU8] at h
  | bool b => simp [decodeOptU8] at h
  | str s => simp [decodeOptU8] at h
  | arr a => simp [decodeOptU8] at h
  | obj f => simp [decodeOptU8] at h
  | num nn =>
      cases nn with
      | float => simp [decodeOptU8] at h
      | int i =>
          simp only [decodeOptU8] at h
          split at h
          · rename_i hc
            simp only [Option.some.injEq] at h
            subst h
            omega
          · cases h

/-- A decoded present risk component comes from decoding a JSON object
with decodeRiskFields. -/
theorem decodeOptRiskInfo_some_some (o : Option Json) (r : RiskInfo)
    (h : decodeOptRiskInfo o = some (some r)) :
    ∃ fs, o = some (Json.obj fs) ∧ decodeRiskFields fs = some r := by
  rcases o with _ | j
  · simp [decodeOptRiskInfo] at h
  cases j with
  | null => simp [decodeOptRiskInfo] at h
  | bool b => simp [decodeOptRiskInfo] at h
  | num nn => simp [decodeOptRiskInfo] at h
  | str s => simp [decodeOptRiskInfo] at h
  | arr a => simp [decodeOptRiskInfo] at h
  | obj fs =>
      refine ⟨fs, rfl, ?_⟩
      simpa [decodeOptRiskInfo] using h

/-- C9 (amended): a successfully decoded risk_score, when present, is an
integer bounded by 255, the u8 range. -/
theorem decoded_risk_score_le_255 (j : Json) (info : IPInfo) (r : RiskInfo)
    (n : Nat) (hj : decodeIPInfo j = some info) (hr : info.risk = some r)
    (hn : r.risk_score = some n) : n ≤ 255 := by
  cases j with
  | null => simp [decodeIPInfo] at hj
  | bool b => simp [decodeIPInfo] at hj
  | num nn => simp [decodeIPInfo] at hj
  | str s => simp [decodeIPInfo] at hj
  | arr a => simp [decodeIPInfo] at hj
  | obj fields =>
      have hcomp := decodeIPInfoFields_components fields info hj
      have hrisk := hcomp.2.2.2
      rw [hr] at hrisk
      obtain ⟨fs, _, hfs⟩ := decodeOptRiskInfo_some_some _ r hrisk
      have hscore := (decodeRiskFields_components fs r hfs).2.2.2.2.2
      rw [hn] at hscore
      exact decodeOptU8_le _ n hscore

/-- Counterexample for C9 as stated: a response whose risk_score is 200
decodes successfully, and 200 exceeds 100. -/
theorem decoded_risk_score_can_exceed_100 :
    decodeIPInfo (Json.obj [("ip", Json.str "1.2.3.4"),
        ("risk", Json.obj [("risk_score", Json.num (JsonNum.int 200))])]) =
      some ⟨"1.2.3.4", none, none,
            some ⟨none, none, none, none, none, some 200⟩⟩ ∧
    ¬((200 : Nat) ≤ 100) := ⟨rfl, by decide⟩

/-- Witness for the amended C9 at the 200-score response. -/
theorem decoded_risk_score_le_255_witness :
    decodeIPInfo (Json.obj [("ip", Json.str "1.2.3.4"),
        ("risk", Json.obj [("risk_score", Json.num (JsonNum.int 200))])]) =
      some ⟨"1.2.3.4", none, none,
            some ⟨none, none, none, none, none, some 200⟩⟩ ∧
    (200 : Nat) ≤ 255 :=
  ⟨rfl, decoded_risk_score_le_255
    (Json.obj [("ip", Json.str "1.2.3.4"),
        ("risk", Json.obj [("risk_score", Json.num (JsonNum.int 200))])])
    ⟨"1.2.3.4", none, none, some ⟨none, none, none, none, none, some 200⟩⟩
    ⟨none, none, none, none, none, some 200⟩ 200 rfl rfl rfl⟩

/-- Witness for C10: on the same body, the single query decodes a record
while the bulk query rejects it, the URL being the same. -/
theorem single_bulk_same_url_as_query_ip_witness :
    (query_ip_with_endpoint singleTransport "8.8.8.8" "http://x/").1 =
      Except.ok ⟨"8.8.8.8", none, none, none⟩ ∧
    (query_bulk_with_endpoint singleTransport ["8.8.8.8"] "http://x/").1 =
      Except.error Error.decode := by
  have h :=
    (single_bulk_same_url_as_query_ip singleTransport "8.8.8.8"
      "http://x/").2.2.2 "body" rfl
  exact ⟨h.1.trans rfl, h.2.trans rfl⟩

end Ipapi
